import Mathlib

/-!
# LPS25H sensor driver (`lps25h/lps25h.go`): shallow embedding

The Go driver is embedded as pure Lean functions.

* Go's `(value, error)` results are pairs whose components are `Option`s
  (`none` is Go's `nil`), so that "a value and an error at once" is a state
  the type can express and the theorems have to exclude.
* Effects (bus operations, log lines, sleeping) are recorded in an explicit
  `World` that every effectful function takes and returns.
* The host runtime's interfaces (`board.I2C`, `board.I2CHandle`,
  `board.LocalBoard`, `resource.Dependencies`) are records of functions: a
  simulated bus answers each call from the history of bus operations so far.
* `byte` values are `Nat`s below 256; Go's `byte(x)` on an `int` is `x % 256`.
-/

namespace Lps25h

/-! ## Errors -/

/-- Go `error` values that the driver creates, receives or passes on.
`fieldRequired` is `utils.NewConfigValidationFieldRequiredError(path, field)`,
`errorf` is `fmt.Errorf` with the verbs already filled in, `wrapf` is
`fmt.Errorf` with a trailing `%w`, `multi` is the combined error of
`go.uber.org/multierr`, and `other` is any error made elsewhere (a bus or a
dependency lookup), identified by its message. -/
inductive Err where
  | fieldRequired (path field : String)
  | errorf (msg : String)
  | wrapf (msg : String) (inner : Err)
  | multi (errs : List Err)
  | other (msg : String)

/-- The list of errors an error stands for (`multierr.Errors`): the members of
a combined error, the error itself otherwise. -/
def Err.errors : Err → List Err
  | .multi errs => errs
  | e => [e]

/-- Modelled from the spec: `multierr.Append` of `go.uber.org/multierr`, which
is not under `src/`. It merges two errors into one reported failure and
discards neither: a `nil` side yields the other side unchanged, and two
non-`nil` sides yield one combined error listing the left errors and then
the right errors. -/
def multierrAppend (left right : Option Err) : Option Err :=
  match left, right with
  | none, r => r
  | l, none => l
  | some l, some r => some (.multi (l.errors ++ r.errors))

/-! ## Configuration -/

/-- The address used when the configuration gives none. -/
def defaultI2Caddr : Int := 0x5c

/-- First byte of the soft-reset command. -/
def lps25hCOMMANDSOFTRESET1 : Nat := 0x30

/-- Second byte of the soft-reset command. -/
def lps25hCOMMANDSOFTRESET2 : Nat := 0xA2

/-- Config is used for converting config attributes. `I2cAddr` is a Go `int`;
an absent `i2c_addr` attribute decodes to `0`. -/
structure Config where
  Board : String
  I2CBus : String
  I2cAddr : Int

/-- Validate ensures all parts of the config are valid. Go's `len` of a string
is its length in bytes. The first component is the dependency slice (`none`
is the `nil` slice), the second the error. -/
def Config.Validate (conf : Config) (path : String) :
    Option (List String) × Option Err :=
  let deps : List String := []
  if conf.Board.utf8ByteSize == 0 then
    (none, some (.fieldRequired path "board"))
  else
    let deps := deps ++ [conf.Board]
    if conf.I2CBus.utf8ByteSize == 0 then
      (none, some (.fieldRequired path "i2c_bus"))
    else
      (some deps, none)

/-! ## The world: bus operations, log lines, elapsed sleep -/

/-- One operation on the two-wire bus, as a simulated bus records it. -/
inductive BusOp where
  | openHandle (addr : Nat)
  | write (bytes : List Nat)
  | close
  deriving DecidableEq, Repr

/-- One line written through the `golog.Logger`: a warning with its message,
or an error line with its format string and the error that fills it. -/
inductive LogEntry where
  | warn (msg : String)
  | errorf (format : String) (arg : Err)

/-- Everything the driver does to its surroundings: the bus operations in the
order they were made, the log lines in the order they were written, and the
total time slept, in nanoseconds. -/
structure World where
  trace : List BusOp
  logs : List LogEntry
  slept : Nat

/-- A `context.Context`, reduced to whether it has been cancelled. -/
structure Context where
  done : Bool

/-- Go's `time.Millisecond`, in nanoseconds. -/
def millisecond : Nat := 1000000

/-- A `board.I2CHandle`: the outcome of `Write` and of `Close` (`none` is a
`nil` error), each a function of the bus operations made before the call. -/
structure I2CHandle where
  write : Context → List BusOp → List Nat → Option Err
  close : List BusOp → Option Err

/-- A `board.I2C`: the outcome of `OpenHandle` at an address, a function of
the bus operations made before the call. -/
structure I2C where
  openHandle : List BusOp → Nat → Except Err I2CHandle

/-- A `board.LocalBoard`: `I2CByName` is the lookup of a bus by name (`none`
is the `false` of Go's `(I2C, bool)`). -/
structure LocalBoard where
  i2cByName : String → Option I2C

/-- A `board.Board`: `asLocal` is the outcome of the type assertion
`b.(board.LocalBoard)` (`none` when the assertion fails). -/
structure Board where
  asLocal : Option LocalBoard

/-- The `resource.Dependencies` handed to the constructor, reduced to what
`board.FromDependencies(deps, name)` returns for each name. -/
structure Dependencies where
  boardFromDependencies : String → Except Err Board

/-- Go's conversion `byte(x)` of an `int`: the low eight bits. -/
def byte (x : Int) : Nat := (x % 256).toNat

/-! ## The driver -/

/-- The driver instance: its name (`resource.Named`), the bus, and the device
address, a `byte`. The logger field is the `logs` component of `World`. -/
structure lps25h where
  Named : String
  bus : I2C
  addr : Nat

/-- A value of Go's `interface{}` as it occurs in a readings map. -/
inductive Value where
  | str (s : String)
  | int (n : Int)
  | bool (b : Bool)
  | null
  deriving DecidableEq, Repr

/-- Readings always returns "hello world". A map is a list of entries; `none`
is the `nil` map. -/
def lps25h.Readings (_s : lps25h) (_ctx : Context)
    (_extra : Option (List (String × Value))) (w : World) :
    (Option (List (String × Value)) × Option Err) × World :=
  ((some [("hello", .str "world")], none), w)

/-- The reset routine: reset will reset the sensor. -/
def lps25h.reset (s : lps25h) (ctx : Context) (w : World) : Option Err × World :=
  let opened := s.bus.openHandle w.trace s.addr
  let w : World := { w with trace := w.trace ++ [.openHandle s.addr] }
  match opened with
  | .error err =>
    let w : World := { w with logs := w.logs ++ [.errorf "can't open lps25h i2c %s" err] }
    (some err, w)
  | .ok handle =>
    let bytes := [lps25hCOMMANDSOFTRESET1, lps25hCOMMANDSOFTRESET2]
    let err := handle.write ctx w.trace bytes
    let w : World := { w with trace := w.trace ++ [.write bytes] }
    -- wait for chip reset cycle to complete
    let w : World := { w with slept := w.slept + 1 * millisecond }
    let closeErr := handle.close w.trace
    let w : World := { w with trace := w.trace ++ [.close] }
    (multierrAppend err closeErr, w)

/-- The constructor `newSensor`. The first component of the result is the
sensor (`none` is `nil`), the second the error. -/
def newSensor (ctx : Context) (deps : Dependencies) (name : String)
    (conf : Config) (w : World) : (Option lps25h × Option Err) × World :=
  match deps.boardFromDependencies conf.Board with
  | .error err =>
    ((none, some (.wrapf "lps25h init: failed to find board: " err)), w)
  | .ok b =>
    match b.asLocal with
    | none =>
      ((none, some (.errorf ("board " ++ conf.Board ++ " is not local"))), w)
    | some localB =>
      match localB.i2cByName conf.I2CBus with
      | none =>
        ((none, some (.errorf ("lps25h init: failed to find i2c bus " ++ conf.I2CBus))), w)
      | some i2cbus =>
        let addr := conf.I2cAddr
        let (addr, w) : Int × World :=
          if addr == 0 then
            (defaultI2Caddr, { w with logs := w.logs ++ [.warn "using i2c address : 0x44"] })
          else
            (addr, w)
        let s : lps25h := { Named := name, bus := i2cbus, addr := byte addr }
        match s.reset ctx w with
        | (some err, w) => ((none, some err), w)
        | (none, w) => ((some s, none), w)

/-! ## Vocabulary for the statements about `newSensor` -/

/-- The device address `newSensor` settles on once board and bus are found:
the default when `I2cAddr` is zero, `I2cAddr` otherwise, converted to a
`byte`. -/
def resolvedAddr (conf : Config) : Nat :=
  byte (if conf.I2cAddr == 0 then defaultI2Caddr else conf.I2cAddr)

/-- The world in which `newSensor` calls `reset`: the warning has been logged
when `I2cAddr` is zero, nothing else has changed. -/
def warned (conf : Config) (w : World) : World :=
  if conf.I2cAddr == 0 then
    { w with logs := w.logs ++ [.warn "using i2c address : 0x44"] }
  else w

/-- The driver value `newSensor` builds before it calls `reset`. -/
def built (name : String) (i2cbus : I2C) (conf : Config) : lps25h :=
  { Named := name, bus := i2cbus, addr := resolvedAddr conf }

/-- The two bytes of the soft-reset command. -/
def resetBytes : List Nat := [lps25hCOMMANDSOFTRESET1, lps25hCOMMANDSOFTRESET2]

/-! ## Simulated surroundings -/

/-- A context that has not been cancelled. -/
def background : Context := { done := false }

/-- The world before anything has happened. -/
def idle : World := { trace := [], logs := [], slept := 0 }

/-- A simulated handle whose `Write` and `Close` always have the given
outcomes. -/
def simHandle (writeErr closeErr : Option Err) : I2CHandle :=
  { write := fun _ _ _ => writeErr, close := fun _ => closeErr }

/-- A simulated bus on which `OpenHandle` always succeeds with the given
handle. -/
def simBus (handle : I2CHandle) : I2C :=
  { openHandle := fun _ _ => .ok handle }

/-- A simulated bus on which `OpenHandle` always fails with the given error. -/
def deadBus (err : Err) : I2C :=
  { openHandle := fun _ _ => .error err }

/-- Dependencies holding one local board, "pi", with one bus, "1". -/
def simDeps (i2cbus : I2C) : Dependencies :=
  { boardFromDependencies := fun name =>
      if name = "pi" then
        .ok { asLocal := some { i2cByName := fun bus => if bus = "1" then some i2cbus else none } }
      else .error (.other "dependency not found") }

/-! ## Facts about the embedding -/

/-- A string has byte length zero exactly when it is the empty string. -/
theorem utf8ByteSize_eq_zero_iff (s : String) : s.utf8ByteSize = 0 ↔ s = "" := by
  cases s with
  | mk cs =>
    cases cs with
    | nil => simp [String.utf8ByteSize, String.utf8ByteSize.go]
    | cons c cs =>
      have hc := Char.utf8Size_pos c
      constructor
      · intro h
        simp [String.utf8ByteSize, String.utf8ByteSize.go] at h
        omega
      · intro h
        exact absurd (congrArg String.data h) (by simp)

/-! ## Configuration validation -/

/-- C1: `Config.Validate` fails exactly when `Board` or `I2CBus` is empty, and
the error names the absent field: an empty `Board` (whatever `I2CBus` is)
gives the `nil` dependency list and the field-required error for the path
naming "board"; a non-empty `Board` with an empty `I2CBus` gives the `nil`
dependency list and the field-required error naming "i2c_bus". -/
theorem validate_fails_iff_field_missing (conf : Config) (path : String) :
    ((conf.Validate path).2 ≠ none ↔ (conf.Board = "" ∨ conf.I2CBus = "")) ∧
    (conf.Board = "" →
      conf.Validate path = (none, some (.fieldRequired path "board"))) ∧
    (conf.Board ≠ "" → conf.I2CBus = "" →
      conf.Validate path = (none, some (.fieldRequired path "i2c_bus"))) := by
  by_cases h1 : conf.Board = "" <;> by_cases h2 : conf.I2CBus = "" <;>
    simp [Config.Validate, utf8ByteSize_eq_zero_iff, h1, h2]

/-- Witness of C1 at a config without a board and at a config without a bus. -/
theorem validate_fails_iff_field_missing_witness :
    Config.Validate ⟨"", "1", 0⟩ "sensor"
      = (none, some (.fieldRequired "sensor" "board")) ∧
    Config.Validate ⟨"pi", "", 0⟩ "sensor"
      = (none, some (.fieldRequired "sensor" "i2c_bus")) :=
  ⟨(validate_fails_iff_field_missing ⟨"", "1", 0⟩ "sensor").2.1 rfl,
   (validate_fails_iff_field_missing ⟨"pi", "", 0⟩ "sensor").2.2 (by decide) rfl⟩

/-- C2: for every config whose `Board` and `I2CBus` are both non-empty, every
path and every `I2cAddr`, `Config.Validate` returns no error and the
dependency list that is exactly `[Board]`. -/
theorem validate_ok_returns_board (board bus : String) (addr : Int) (path : String)
    (hboard : board ≠ "") (hbus : bus ≠ "") :
    Config.Validate ⟨board, bus, addr⟩ path = (some [board], none) := by
  simp [Config.Validate, utf8ByteSize_eq_zero_iff, hboard, hbus]

/-- Witness of C2 at board "pi", bus "1", address 0x5c. -/
theorem validate_ok_returns_board_witness :
    Config.Validate ⟨"pi", "1", 0x5c⟩ "sensor" = (some ["pi"], none) :=
  validate_ok_returns_board "pi" "1" 0x5c "sensor" (by decide) (by decide)

/-! ## The reset routine -/

/-- What `reset` does when the handle opens: it writes, sleeps, closes, and
combines the two outcomes. -/
theorem reset_of_open_ok (s : lps25h) (ctx : Context) (w : World) (handle : I2CHandle)
    (hopen : s.bus.openHandle w.trace s.addr = .ok handle) :
    s.reset ctx w =
      (multierrAppend
          (handle.write ctx (w.trace ++ [.openHandle s.addr]) resetBytes)
          (handle.close (w.trace ++ [.openHandle s.addr] ++ [.write resetBytes])),
        { trace := w.trace ++ [.openHandle s.addr] ++ [.write resetBytes] ++ [.close],
          logs := w.logs,
          slept := w.slept + 1 * millisecond }) := by
  simp [lps25h.reset, hopen, resetBytes]

/-- What `reset` does when the handle does not open: it logs and returns. -/
theorem reset_of_open_error (s : lps25h) (ctx : Context) (w : World) (e : Err)
    (hopen : s.bus.openHandle w.trace s.addr = .error e) :
    s.reset ctx w =
      (some e,
        { trace := w.trace ++ [.openHandle s.addr],
          logs := w.logs ++ [.errorf "can't open lps25h i2c %s" e],
          slept := w.slept }) := by
  simp [lps25h.reset, hopen]

/-- C5: on every simulated bus on which `OpenHandle` succeeds, whatever the
outcomes of `Write` and `Close`, the bus operations `reset` performs are
exactly one open at the driver's address, one write of the bytes 0x30 0xA2 and
one close, in that order; the close is performed also when the write fails. -/
theorem reset_call_sequence (s : lps25h) (ctx : Context) (w : World) (handle : I2CHandle)
    (hopen : s.bus.openHandle w.trace s.addr = .ok handle) :
    (s.reset ctx w).2.trace
      = w.trace ++ [.openHandle s.addr, .write [0x30, 0xA2], .close] := by
  rw [reset_of_open_ok s ctx w handle hopen]
  simp [resetBytes, lps25hCOMMANDSOFTRESET1, lps25hCOMMANDSOFTRESET2]

/-- Witness of C5 on a bus whose write and close both fail. -/
theorem reset_call_sequence_witness :
    ((⟨"lps", simBus (simHandle (some (.other "nack")) (some (.other "busy"))), 0x5c⟩ :
        lps25h).reset background idle).2.trace
      = [] ++ [.openHandle 0x5c, .write [0x30, 0xA2], .close] :=
  reset_call_sequence
    ⟨"lps", simBus (simHandle (some (.other "nack")) (some (.other "busy"))), 0x5c⟩
    background idle (simHandle (some (.other "nack")) (some (.other "busy"))) rfl

/-- C6: when `OpenHandle` succeeds, the error `reset` returns is the
combination of the write error and the close error, neither discarded: it is
`nil` exactly when both `Write` and `Close` succeeded, the write error alone
when only the write failed, the close error alone when only the close failed,
and one error holding both, the write error first, when both failed. -/
theorem reset_error_coalesced (s : lps25h) (ctx : Context) (w : World) (handle : I2CHandle)
    (hopen : s.bus.openHandle w.trace s.addr = .ok handle) :
    let writeErr := handle.write ctx (w.trace ++ [.openHandle s.addr]) [0x30, 0xA2]
    let closeErr := handle.close (w.trace ++ [.openHandle s.addr, .write [0x30, 0xA2]])
    let err := (s.reset ctx w).1
    (err = none ↔ writeErr = none ∧ closeErr = none) ∧
    (closeErr = none → err = writeErr) ∧
    (writeErr = none → err = closeErr) ∧
    (∀ e₁ e₂, writeErr = some e₁ → closeErr = some e₂ →
      err = some (.multi (e₁.errors ++ e₂.errors))) := by
  intro writeErr closeErr err
  have herr : err = multierrAppend writeErr closeErr := by
    simp only [err, writeErr, closeErr, reset_of_open_ok s ctx w handle hopen]
    simp [resetBytes, lps25hCOMMANDSOFTRESET1, lps25hCOMMANDSOFTRESET2]
  rw [herr]
  cases writeErr <;> cases closeErr <;> simp [multierrAppend]

/-- Witness of C6 on a bus whose write and close both fail, and on a bus whose
write alone fails. -/
theorem reset_error_coalesced_witness :
    ((⟨"lps", simBus (simHandle (some (.other "nack")) (some (.other "busy"))), 0x5c⟩ :
        lps25h).reset background idle).1
      = some (.multi ((Err.other "nack").errors ++ (Err.other "busy").errors)) ∧
    ((⟨"lps", simBus (simHandle (some (.other "nack")) none), 0x5c⟩ :
        lps25h).reset background idle).1
      = some (.other "nack") :=
  ⟨(reset_error_coalesced
      ⟨"lps", simBus (simHandle (some (.other "nack")) (some (.other "busy"))), 0x5c⟩
      background idle (simHandle (some (.other "nack")) (some (.other "busy"))) rfl).2.2.2
      (.other "nack") (.other "busy") rfl rfl,
   (reset_error_coalesced
      ⟨"lps", simBus (simHandle (some (.other "nack")) none), 0x5c⟩
      background idle (simHandle (some (.other "nack")) none) rfl).2.1 rfl⟩

/-! ## The constructor -/

/-- Once board and bus are found, `newSensor` builds the driver, runs `reset`
on it in the warned world, and returns the driver or the error of `reset`. -/
theorem newSensor_of_resolved (ctx : Context) (deps : Dependencies) (name : String)
    (conf : Config) (w : World) (b : Board) (localB : LocalBoard) (i2cbus : I2C)
    (hboard : deps.boardFromDependencies conf.Board = .ok b)
    (hlocal : b.asLocal = some localB)
    (hbus : localB.i2cByName conf.I2CBus = some i2cbus) :
    newSensor ctx deps name conf w =
      match (built name i2cbus conf).reset ctx (warned conf w) with
      | (some err, w) => ((none, some err), w)
      | (none, w) => ((some (built name i2cbus conf), none), w) := by
  by_cases haddr : conf.I2cAddr = 0 <;>
    simp [newSensor, hboard, hlocal, hbus, built, warned, resolvedAddr, haddr]

/-- When board or bus is not found, `newSensor` returns an error and leaves
the world as it was. -/
theorem newSensor_of_unresolved (ctx : Context) (deps : Dependencies) (name : String)
    (conf : Config) (w : World)
    (hno : ¬ ∃ b localB i2cbus, deps.boardFromDependencies conf.Board = .ok b ∧
      b.asLocal = some localB ∧ localB.i2cByName conf.I2CBus = some i2cbus) :
    (∃ e, (newSensor ctx deps name conf w).1 = (none, some e)) ∧
    (newSensor ctx deps name conf w).2 = w := by
  cases hboard : deps.boardFromDependencies conf.Board with
  | error err => simp [newSensor, hboard]
  | ok b =>
    cases hlocal : b.asLocal with
    | none => simp [newSensor, hboard, hlocal]
    | some localB =>
      cases hbus : localB.i2cByName conf.I2CBus with
      | none => simp [newSensor, hboard, hlocal, hbus]
      | some i2cbus => exact absurd ⟨b, localB, i2cbus, hboard, hlocal, hbus⟩ hno

/-- C7: on every bus on which `OpenHandle` fails with error `e`, `reset`
returns exactly `e` and performs no `Write` and no `Close` (the open is the
only bus operation), and `newSensor` returns that error and a `nil` sensor. -/
theorem open_failure_propagates (ctx : Context) (e : Err) :
    (∀ (s : lps25h) (w : World), s.bus.openHandle w.trace s.addr = .error e →
      (s.reset ctx w).1 = some e ∧
      (s.reset ctx w).2.trace = w.trace ++ [.openHandle s.addr]) ∧
    (∀ (deps : Dependencies) (name : String) (conf : Config) (w : World)
        (b : Board) (localB : LocalBoard) (i2cbus : I2C),
      deps.boardFromDependencies conf.Board = .ok b →
      b.asLocal = some localB →
      localB.i2cByName conf.I2CBus = some i2cbus →
      i2cbus.openHandle w.trace (resolvedAddr conf) = .error e →
      (newSensor ctx deps name conf w).1 = (none, some e) ∧
      (newSensor ctx deps name conf w).2.trace
        = w.trace ++ [.openHandle (resolvedAddr conf)]) := by
  refine ⟨?_, ?_⟩
  · intro s w hopen
    rw [reset_of_open_error s ctx w e hopen]
    exact ⟨rfl, rfl⟩
  · intro deps name conf w b localB i2cbus hboard hlocal hbus hopen
    have htrace : (warned conf w).trace = w.trace := by
      unfold warned; split <;> rfl
    have hopen' : (built name i2cbus conf).bus.openHandle (warned conf w).trace
        (built name i2cbus conf).addr = .error e := by
      rw [htrace]; exact hopen
    rw [newSensor_of_resolved ctx deps name conf w b localB i2cbus hboard hlocal hbus,
      reset_of_open_error _ ctx _ e hopen']
    simp [htrace, built]

/-- Witness of C7 on a bus that cannot be opened, alone and behind board "pi". -/
theorem open_failure_propagates_witness :
    (((⟨"lps", deadBus (.other "no device"), 0x5c⟩ : lps25h).reset background idle).1
        = some (.other "no device") ∧
      ((⟨"lps", deadBus (.other "no device"), 0x5c⟩ : lps25h).reset background idle).2.trace
        = [] ++ [.openHandle 0x5c]) ∧
    ((newSensor background (simDeps (deadBus (.other "no device"))) "lps"
        ⟨"pi", "1", 0⟩ idle).1 = (none, some (.other "no device")) ∧
      (newSensor background (simDeps (deadBus (.other "no device"))) "lps"
        ⟨"pi", "1", 0⟩ idle).2.trace = [] ++ [.openHandle (resolvedAddr ⟨"pi", "1", 0⟩)]) :=
  ⟨(open_failure_propagates background (.other "no device")).1
      ⟨"lps", deadBus (.other "no device"), 0x5c⟩ idle rfl,
   (open_failure_propagates background (.other "no device")).2
      (simDeps (deadBus (.other "no device"))) "lps" ⟨"pi", "1", 0⟩ idle
      { asLocal := some { i2cByName := fun bus =>
          if bus = "1" then some (deadBus (.other "no device")) else none } }
      { i2cByName := fun bus => if bus = "1" then some (deadBus (.other "no device")) else none }
      (deadBus (.other "no device")) rfl rfl rfl rfl⟩

/-- A `reset` that returns no error has opened, written and closed, once each. -/
theorem reset_trace_of_no_error (s : lps25h) (ctx : Context) (w : World)
    (hnil : (s.reset ctx w).1 = none) :
    (s.reset ctx w).2.trace
      = w.trace ++ [.openHandle s.addr, .write [0x30, 0xA2], .close] := by
  cases hopen : s.bus.openHandle w.trace s.addr with
  | error e =>
    rw [reset_of_open_error s ctx w e hopen] at hnil
    simp at hnil
  | ok handle =>
    rw [reset_of_open_ok s ctx w handle hopen]
    simp [resetBytes, lps25hCOMMANDSOFTRESET1, lps25hCOMMANDSOFTRESET2]

/-- The warning changes the log only. -/
theorem warned_trace (conf : Config) (w : World) : (warned conf w).trace = w.trace := by
  unfold warned; split <;> rfl

/-- C9: construction is all-or-nothing. `newSensor` returns a driver and no
error exactly when the named board is among the dependencies, is a local
board, has the named bus, and `reset` returns no error; in every other case it
returns a `nil` driver and a non-`nil` error; it never returns both a driver
and an error; when board or bus resolution fails no bus operation has been
performed; and on success `reset` has run exactly once (one open, one write,
one close). -/
theorem construction_all_or_nothing (ctx : Context) (deps : Dependencies) (name : String)
    (conf : Config) (w : World) :
    let r := newSensor ctx deps name conf w
    ((∃ s, r.1 = (some s, none)) ↔
      ∃ b localB i2cbus, deps.boardFromDependencies conf.Board = .ok b ∧
        b.asLocal = some localB ∧ localB.i2cByName conf.I2CBus = some i2cbus ∧
        ((built name i2cbus conf).reset ctx (warned conf w)).1 = none) ∧
    ((¬ ∃ s, r.1 = (some s, none)) → ∃ e, r.1 = (none, some e)) ∧
    ¬ (r.1.1.isSome = true ∧ r.1.2.isSome = true) ∧
    ((¬ ∃ b localB i2cbus, deps.boardFromDependencies conf.Board = .ok b ∧
        b.asLocal = some localB ∧ localB.i2cByName conf.I2CBus = some i2cbus) →
      r.2.trace = w.trace) ∧
    (∀ s, r.1 = (some s, none) →
      r.2.trace = w.trace ++ [.openHandle s.addr, .write [0x30, 0xA2], .close]) := by
  intro r
  by_cases hres : ∃ b localB i2cbus, deps.boardFromDependencies conf.Board = .ok b ∧
      b.asLocal = some localB ∧ localB.i2cByName conf.I2CBus = some i2cbus
  · obtain ⟨b, localB, i2cbus, hboard, hlocal, hbus⟩ := hres
    have hr : r = match (built name i2cbus conf).reset ctx (warned conf w) with
        | (some err, w) => ((none, some err), w)
        | (none, w) => ((some (built name i2cbus conf), none), w) :=
      newSensor_of_resolved ctx deps name conf w b localB i2cbus hboard hlocal hbus
    have htr := reset_trace_of_no_error (built name i2cbus conf) ctx (warned conf w)
    rw [warned_trace] at htr
    cases hreset : (built name i2cbus conf).reset ctx (warned conf w) with
    | mk err w' =>
      rw [hreset] at hr htr
      cases err with
      | some e =>
        simp only at hr
        refine ⟨?_, ?_, ?_, ?_, ?_⟩
        · constructor
          · rintro ⟨s, hs⟩
            rw [hr] at hs
            simp at hs
          · rintro ⟨b', localB', i2cbus', hb', hl', hi', hnil⟩
            rw [hboard] at hb'
            cases hb'
            rw [hlocal] at hl'
            cases hl'
            rw [hbus] at hi'
            cases hi'
            rw [hreset] at hnil
            simp at hnil
        · intro _
          exact ⟨e, by rw [hr]⟩
        · rw [hr]; simp
        · intro hno
          exact absurd ⟨b, localB, i2cbus, hboard, hlocal, hbus⟩ hno
        · intro s hs
          rw [hr] at hs
          simp at hs
      | none =>
        simp only at hr
        refine ⟨?_, ?_, ?_, ?_, ?_⟩
        · constructor
          · intro _
            exact ⟨b, localB, i2cbus, hboard, hlocal, hbus, by rw [hreset]⟩
          · intro _
            exact ⟨built name i2cbus conf, by rw [hr]⟩
        · intro hno
          exact absurd ⟨built name i2cbus conf, by rw [hr]⟩ hno
        · rw [hr]; simp
        · intro hno
          exact absurd ⟨b, localB, i2cbus, hboard, hlocal, hbus⟩ hno
        · intro s hs
          rw [hr] at hs
          simp only [Prod.mk.injEq, Option.some.injEq, and_true] at hs
          subst hs
          rw [hr]
          exact htr rfl
  · obtain ⟨⟨e, he⟩, hw⟩ := newSensor_of_unresolved ctx deps name conf w hres
    have he' : r.1 = (none, some e) := he
    have hw' : r.2 = w := hw
    refine ⟨?_, ?_, ?_, ?_, ?_⟩
    · constructor
      · rintro ⟨s, hs⟩
        rw [he'] at hs
        simp at hs
      · rintro ⟨b, localB, i2cbus, hboard, hlocal, hbus, _⟩
        exact absurd ⟨b, localB, i2cbus, hboard, hlocal, hbus⟩ hres
    · intro _
      exact ⟨e, he'⟩
    · rw [he']; simp
    · intro _
      rw [hw']
    · intro s hs
      rw [he'] at hs
      simp at hs

/-- Witness of C9: construction succeeds on a working bus behind board "pi",
and touches no bus when the board is not among the dependencies. -/
theorem construction_all_or_nothing_witness :
    (∃ s, (newSensor background (simDeps (simBus (simHandle none none))) "lps"
        ⟨"pi", "1", 0⟩ idle).1 = (some s, none)) ∧
    (newSensor background (simDeps (simBus (simHandle none none))) "lps"
        ⟨"hat", "1", 0⟩ idle).2.trace = [] :=
  ⟨(construction_all_or_nothing background (simDeps (simBus (simHandle none none))) "lps"
      ⟨"pi", "1", 0⟩ idle).1.mpr ⟨_, _, _, rfl, rfl, rfl, rfl⟩,
   (construction_all_or_nothing background (simDeps (simBus (simHandle none none))) "lps"
      ⟨"hat", "1", 0⟩ idle).2.2.2.1
      (by rintro ⟨b, localB, i2cbus, hboard, _⟩; simp [simDeps] at hboard)⟩

/-! ## Address resolution -/

/-- Once board and bus are found, the first thing `newSensor` does on the bus
is to open a handle at `resolvedAddr`, the address a returned driver holds. -/
theorem newSensor_opens_at_resolved (ctx : Context) (deps : Dependencies) (name : String)
    (conf : Config) (w : World) (b : Board) (localB : LocalBoard) (i2cbus : I2C)
    (hboard : deps.boardFromDependencies conf.Board = .ok b)
    (hlocal : b.asLocal = some localB)
    (hbus : localB.i2cByName conf.I2CBus = some i2cbus) :
    (∃ rest, (newSensor ctx deps name conf w).2.trace
        = w.trace ++ .openHandle (resolvedAddr conf) :: rest) ∧
    (∀ s, (newSensor ctx deps name conf w).1.1 = some s → s.addr = resolvedAddr conf) ∧
    (newSensor ctx deps name conf w).1.2
      = ((built name i2cbus conf).reset ctx (warned conf w)).1 := by
  rw [newSensor_of_resolved ctx deps name conf w b localB i2cbus hboard hlocal hbus]
  cases hopen : (built name i2cbus conf).bus.openHandle (warned conf w).trace
      (built name i2cbus conf).addr with
  | error e =>
    rw [reset_of_open_error _ ctx _ e hopen]
    simp [warned_trace, built]
  | ok handle =>
    rw [reset_of_open_ok _ ctx _ handle hopen]
    cases multierrAppend
        (handle.write ctx ((warned conf w).trace ++ [.openHandle (built name i2cbus conf).addr])
          resetBytes)
        (handle.close ((warned conf w).trace ++ [.openHandle (built name i2cbus conf).addr]
          ++ [.write resetBytes])) <;>
      simp [warned_trace, built]

/-- Go's `byte(x)` leaves an `int` between 0 and 255 as it is. -/
theorem byte_of_small (a : Nat) (ha : a ≤ 255) : byte (a : Int) = a := by
  unfold byte
  omega

/-- C3, as stated, fails at the explicit address 256: on a working bus the
driver is built, the address it stores and opens the handle at is 0, and 0
is not the configured 256. -/
theorem address_resolution_counterexample :
    Option.map lps25h.addr
        (newSensor background (simDeps (simBus (simHandle none none))) "lps"
          ⟨"pi", "1", 256⟩ idle).1.1 = some 0 ∧
    (newSensor background (simDeps (simBus (simHandle none none))) "lps"
        ⟨"pi", "1", 256⟩ idle).2.trace
      = [.openHandle 0, .write [0x30, 0xA2], .close] ∧
    ¬ Option.map (fun s => (lps25h.addr s : Int))
        (newSensor background (simDeps (simBus (simHandle none none))) "lps"
          ⟨"pi", "1", 256⟩ idle).1.1 = some (Config.I2cAddr ⟨"pi", "1", 256⟩) := by
  refine ⟨rfl, rfl, ?_⟩
  decide

/-- C3, amended: once board and bus are found, a config with no address
(`I2cAddr` zero) has the default 0x5c stored in the driver and used to open
the bus handle, and a config with an explicit address `a` between 1 and 255
has `a` stored and used. -/
theorem address_resolution (ctx : Context) (deps : Dependencies) (name : String)
    (conf : Config) (w : World) (b : Board) (localB : LocalBoard) (i2cbus : I2C)
    (hboard : deps.boardFromDependencies conf.Board = .ok b)
    (hlocal : b.asLocal = some localB)
    (hbus : localB.i2cByName conf.I2CBus = some i2cbus) :
    (conf.I2cAddr = 0 →
      (∃ rest, (newSensor ctx deps name conf w).2.trace
          = w.trace ++ .openHandle 0x5c :: rest) ∧
      (∀ s, (newSensor ctx deps name conf w).1.1 = some s → s.addr = 0x5c)) ∧
    (∀ a : Nat, 1 ≤ a → a ≤ 255 → conf.I2cAddr = a →
      (∃ rest, (newSensor ctx deps name conf w).2.trace
          = w.trace ++ .openHandle a :: rest) ∧
      (∀ s, (newSensor ctx deps name conf w).1.1 = some s → s.addr = a)) := by
  obtain ⟨htrace, haddr, _⟩ :=
    newSensor_opens_at_resolved ctx deps name conf w b localB i2cbus hboard hlocal hbus
  constructor
  · intro hzero
    have hres : resolvedAddr conf = 0x5c := by
      simp [resolvedAddr, hzero, defaultI2Caddr, byte]
    rw [hres] at htrace haddr
    exact ⟨htrace, haddr⟩
  · intro a ha1 ha2 hconf
    have hne : ¬ ((a : Int) = 0) := by omega
    have hres : resolvedAddr conf = a := by
      simp [resolvedAddr, hconf, hne, byte_of_small a ha2]
    rw [hres] at htrace haddr
    exact ⟨htrace, haddr⟩

/-- Witness of C3, amended, at the explicit address 0x5d on a working bus. -/
theorem address_resolution_witness :
    (∃ rest, (newSensor background (simDeps (simBus (simHandle none none))) "lps"
        ⟨"pi", "1", 0x5d⟩ idle).2.trace = [] ++ .openHandle 0x5d :: rest) ∧
    (∀ s, (newSensor background (simDeps (simBus (simHandle none none))) "lps"
        ⟨"pi", "1", 0x5d⟩ idle).1.1 = some s → s.addr = 0x5d) :=
  (address_resolution background (simDeps (simBus (simHandle none none))) "lps"
    ⟨"pi", "1", 0x5d⟩ idle _ _ _ rfl rfl rfl).2 0x5d (by decide) (by decide) rfl

/-- C4, as stated, fails at the supplied address 0x15c, which is no 7-bit
address: `Validate` returns no error, `newSensor` on a working bus returns a
driver and no error, and the handle is opened at 0x5c, not at 0x15c. -/
theorem address_validated_counterexample :
    ¬ ((0 : Int) ≤ 0x15c ∧ (0x15c : Int) ≤ 127) ∧
    Config.Validate ⟨"pi", "1", 0x15c⟩ "sensor" = (some ["pi"], none) ∧
    (newSensor background (simDeps (simBus (simHandle none none))) "lps"
        ⟨"pi", "1", 0x15c⟩ idle).1.2 = none ∧
    (newSensor background (simDeps (simBus (simHandle none none))) "lps"
        ⟨"pi", "1", 0x15c⟩ idle).1.1.isSome = true ∧
    (newSensor background (simDeps (simBus (simHandle none none))) "lps"
        ⟨"pi", "1", 0x15c⟩ idle).2.trace
      = [.openHandle 0x5c, .write [0x30, 0xA2], .close] := by
  refine ⟨by decide, rfl, rfl, rfl, rfl⟩

/-- C4, amended: a supplied device address is not validated. The result of
`Config.Validate` is the same for every `I2cAddr`; and once board and bus are
found, `newSensor` with a non-zero `I2cAddr` opens the bus handle at
`I2cAddr` modulo 256 and returns exactly the error of `reset` at that
address, so that no address makes it fail by itself. -/
theorem address_not_validated (ctx : Context) (deps : Dependencies) (name : String)
    (conf : Config) (w : World) :
    (∀ (path : String) (a : Int),
      Config.Validate { conf with I2cAddr := a } path = conf.Validate path) ∧
    (∀ (b : Board) (localB : LocalBoard) (i2cbus : I2C),
      deps.boardFromDependencies conf.Board = .ok b →
      b.asLocal = some localB →
      localB.i2cByName conf.I2CBus = some i2cbus →
      conf.I2cAddr ≠ 0 →
      (∃ rest, (newSensor ctx deps name conf w).2.trace
          = w.trace ++ .openHandle (conf.I2cAddr % 256).toNat :: rest) ∧
      (newSensor ctx deps name conf w).1.2
        = ((⟨name, i2cbus, (conf.I2cAddr % 256).toNat⟩ : lps25h).reset ctx w).1) := by
  constructor
  · intro path a
    rfl
  · intro b localB i2cbus hboard hlocal hbus hne
    obtain ⟨htrace, _, herr⟩ :=
      newSensor_opens_at_resolved ctx deps name conf w b localB i2cbus hboard hlocal hbus
    have hres : resolvedAddr conf = (conf.I2cAddr % 256).toNat := by
      simp [resolvedAddr, hne, byte]
    have hw : warned conf w = w := by
      simp [warned, hne]
    rw [hres] at htrace
    refine ⟨htrace, ?_⟩
    rw [herr, hw, built, hres]

/-- Witness of C4, amended, at the address 200 on a working bus. -/
theorem address_not_validated_witness :
    (∃ rest, (newSensor background (simDeps (simBus (simHandle none none))) "lps"
        ⟨"pi", "1", 200⟩ idle).2.trace
          = [] ++ .openHandle (Int.toNat (Config.I2cAddr ⟨"pi", "1", 200⟩ % 256)) :: rest) ∧
    (newSensor background (simDeps (simBus (simHandle none none))) "lps"
        ⟨"pi", "1", 200⟩ idle).1.2
      = ((⟨"lps", simBus (simHandle none none),
            Int.toNat (Config.I2cAddr ⟨"pi", "1", 200⟩ % 256)⟩ : lps25h).reset
          background idle).1 :=
  (address_not_validated background (simDeps (simBus (simHandle none none))) "lps"
    ⟨"pi", "1", 200⟩ idle).2 _ _ _ rfl rfl rfl (by decide)

/-- C10 at the config without an address, on a working bus: `newSensor` logs
the warning "using i2c address : 0x44", yet the address it stores in the
driver and opens the bus handle at is 0x5c, which is not 0x44. -/
theorem default_address_differs_from_warning :
    (newSensor background (simDeps (simBus (simHandle none none))) "lps"
        ⟨"pi", "1", 0⟩ idle).2.logs = [.warn "using i2c address : 0x44"] ∧
    Option.map lps25h.addr
        (newSensor background (simDeps (simBus (simHandle none none))) "lps"
          ⟨"pi", "1", 0⟩ idle).1.1 = some 0x5c ∧
    (newSensor background (simDeps (simBus (simHandle none none))) "lps"
        ⟨"pi", "1", 0⟩ idle).2.trace
      = [.openHandle 0x5c, .write [0x30, 0xA2], .close] ∧
    (0x5c : Nat) ≠ 0x44 := by
  refine ⟨rfl, rfl, rfl, ?_⟩
  decide

/-! ## Readings -/

/-- C8: `Readings` is a constant stub. For every driver and every argument
map, the `nil` map included, it returns no error and the map with the single
entry "hello" to "world", and it performs no bus operation: the world, and
with it the trace of bus operations, is as before. -/
theorem readings_constant (s : lps25h) (ctx : Context)
    (extra : Option (List (String × Value))) (w : World) :
    (s.Readings ctx extra w).1.1 = some [("hello", Value.str "world")] ∧
    (s.Readings ctx extra w).1.2 = none ∧
    (s.Readings ctx extra w).2 = w ∧
    (s.Readings ctx extra w).2.trace = w.trace :=
  ⟨rfl, rfl, rfl, rfl⟩

end Lps25h
